import Mathlib

/-! StereoPipeline: RPC camera model interface, ISIS disk image resource,
camera_footprint arguments.

A shallow embedding of
* `src/asp/Sessions/RPC/RPCModel.h` (class `asp::RPCModel`),
* `src/asp/IsisIO/DiskImageResourceIsis.cc` (class `vw::DiskImageResourceIsis`),
* `src/asp/Tools/camera_footprint.cc` (`handle_arguments`),

followed by the properties established about them.

Conventions.  A C++ member function is a computation of type `Method σ α`: it runs on
the object state `σ`, ends either normally with an `α` or with a thrown exception, and
leaves a final object state.  `double` is idealised as an element of a field `K`
(instantiated with `ℚ` for concrete evaluation); `int` is `Int`.
-/

namespace vw

/-! ## Vision Workbench basics used by the sources -/

/-- Exception classes of `vw/Core/Exception.h` thrown by the embedded code.  Only the class
is kept, the text streamed into the exception is not.  `NullPointer` stands for the failed
`BOOST_ASSERT` of dereferencing an empty `boost::shared_ptr`. -/
inductive Exception where
  | NoImplErr
  | IOErr
  | ArgumentErr
  | NullPointer
deriving DecidableEq, Repr

/-- A member function on an object of type `σ` returning `α`: the final object state is
kept also when an exception is thrown. -/
abbrev Method (σ α : Type) : Type := ExceptT Exception (StateM σ) α

/-- Run a member function on an object: the outcome and the object afterwards. -/
def Method.exec {σ α : Type} (f : Method σ α) (s : σ) : Except Exception α × σ :=
  (f.run).run s

/-- The function `vw::vw_throw(e)`: never returns normally. -/
def vw_throw {σ : Type} (e : Exception) : Method σ Unit :=
  throw e

/-- The macro `VW_ASSERT(cond, excep)`: `if (!(cond)) vw_throw(excep)`. -/
def VW_ASSERT {σ : Type} (cond : Bool) (excep : Exception) : Method σ Unit :=
  if !cond then vw_throw excep else pure ()

/-- The fixed-size vector `vw::Vector<ElemT, SizeN>`: `SizeN` elements, the size being part
of the type. -/
structure Vector (K : Type) (n : Nat) where
  data : List K
  size_eq : data.length = n

/-- Equality of fixed-size vectors is equality of their element lists. -/
instance {K : Type} {n : Nat} [DecidableEq K] : DecidableEq (Vector K n) :=
  fun a b => decidable_of_iff (a.data = b.data)
    ⟨fun h => by cases a; cases b; cases h; rfl, fun h => by rw [h]⟩

/-- Element access `v[i]`. -/
def Vector.get {K : Type} {n : Nat} (v : Vector K n) (i : Fin n) : K :=
  v.data.get ⟨i.1, by rw [v.size_eq]; exact i.2⟩

/-- The default constructor `vw::Vector<ElemT,SizeN>()`: all elements zero. -/
def Vector.zero {K : Type} [Zero K] (n : Nat) : Vector K n :=
  ⟨List.replicate n 0, List.length_replicate n 0⟩

/-- The type `vw::Vector2` is `Vector<double,2>`. -/
abbrev Vector2 (K : Type) : Type := Vector K 2

/-- The type `vw::Vector3` is `Vector<double,3>`. -/
abbrev Vector3 (K : Type) : Type := Vector K 3

/-- The type `vw::Matrix<double,Rows,Cols>`, stored by rows. -/
abbrev Matrix (K : Type) (rows cols : Nat) : Type := Vector (Vector K cols) rows

end vw

namespace asp

open vw

/-! ## `asp::RPCModel` (RPCModel.h) -/

/-- The data members of `class RPCModel`.  `Datum` is `vw::cartography::Datum`, a type of
the Vision Workbench library that the header only stores and hands back. -/
structure RPCModel (Datum K : Type) where
  m_datum : Datum
  m_line_num_coeff : Vector K 20
  m_line_den_coeff : Vector K 20
  m_sample_num_coeff : Vector K 20
  m_sample_den_coeff : Vector K 20
  m_xy_offset : Vector2 K
  m_xy_scale : Vector2 K
  m_lonlatheight_offset : Vector3 K
  m_lonlatheight_scale : Vector3 K

namespace RPCModel

variable {Datum K : Type}

/-- The typedef `RPCModel::CoeffVec` is `vw::Vector<double,20>`. -/
abbrev CoeffVec (K : Type) : Type := Vector K 20

/-- The constructor taking the datum, the four coefficient vectors and the four
offset/scale vectors.  (Its body is outside the header; by its signature it receives
`Vector<double,20>` values.) -/
abbrev construct (datum : Datum) (line_num_coeff line_den_coeff samp_num_coeff
    samp_den_coeff : Vector K 20) (xy_offset xy_scale : Vector2 K)
    (lonlatheight_offset lonlatheight_scale : Vector3 K) : RPCModel Datum K :=
  ⟨datum, line_num_coeff, line_den_coeff, samp_num_coeff, samp_den_coeff,
    xy_offset, xy_scale, lonlatheight_offset, lonlatheight_scale⟩

/-- Member `type() const`: returns "RPC". -/
def type : Method (RPCModel Datum K) String :=
  return "RPC"

/-- Member `pixel_to_vector(pix) const`: throws `NoImplErr`; the `return vw::Vector3()`
after the throw is kept as written. -/
def pixel_to_vector [Zero K] (_pix : Vector2 K) : Method (RPCModel Datum K) (Vector3 K) := do
  vw_throw Exception.NoImplErr
  return Vector.zero 3

/-- Member `camera_center(pix) const`: throws `NoImplErr`; the `return vw::Vector3()`
after the throw is kept as written. -/
def camera_center [Zero K] (_pix : Vector2 K) : Method (RPCModel Datum K) (Vector3 K) := do
  vw_throw Exception.NoImplErr
  return Vector.zero 3

/-- Accessor `datum() const`. -/
def datum : Method (RPCModel Datum K) Datum := do
  return (← get).m_datum

/-- Accessor `line_num_coeff() const`. -/
def line_num_coeff : Method (RPCModel Datum K) (CoeffVec K) := do
  return (← get).m_line_num_coeff

/-- Accessor `line_den_coeff() const`. -/
def line_den_coeff : Method (RPCModel Datum K) (CoeffVec K) := do
  return (← get).m_line_den_coeff

/-- Accessor `sample_num_coeff() const`. -/
def sample_num_coeff : Method (RPCModel Datum K) (CoeffVec K) := do
  return (← get).m_sample_num_coeff

/-- Accessor `sample_den_coeff() const`. -/
def sample_den_coeff : Method (RPCModel Datum K) (CoeffVec K) := do
  return (← get).m_sample_den_coeff

/-- Accessor `xy_offset() const`. -/
def xy_offset : Method (RPCModel Datum K) (Vector2 K) := do
  return (← get).m_xy_offset

/-- Accessor `xy_scale() const`. -/
def xy_scale : Method (RPCModel Datum K) (Vector2 K) := do
  return (← get).m_xy_scale

/-- Accessor `lonlatheight_offset() const`. -/
def lonlatheight_offset : Method (RPCModel Datum K) (Vector3 K) := do
  return (← get).m_lonlatheight_offset

/-- Accessor `lonlatheight_scale() const`. -/
def lonlatheight_scale : Method (RPCModel Datum K) (Vector3 K) := do
  return (← get).m_lonlatheight_scale

/-- The `const` member functions that the header declares without a body
(`point_to_pixel`, `geodetic_to_pixel`, `geodetic_to_pixel_Jacobian`, `ctr_and_dir`,
`image_to_ground`).  Each is declared `const` on a class without `mutable` members, so
what it computes is a function of the object and the arguments; these functions are the
parameters of the development.  `ctr_and_dir` hands back its two reference arguments. -/
structure ConstBodies (Datum K : Type) where
  point_to_pixel : RPCModel Datum K → Vector3 K → Except Exception (Vector2 K)
  geodetic_to_pixel : RPCModel Datum K → Vector3 K → Except Exception (Vector2 K)
  geodetic_to_pixel_Jacobian : RPCModel Datum K → Vector3 K → Except Exception (Matrix K 2 3)
  ctr_and_dir : RPCModel Datum K → Vector2 K → Vector3 K → Vector3 K →
    Except Exception (Vector3 K × Vector3 K)
  image_to_ground : RPCModel Datum K → Vector2 K → K → Except Exception (Vector2 K)

/-- A call of one of the public non-static member functions declared in the header
(lines 59-99), with its arguments.  The static helpers (`calculate_terms`,
`terms_Jacobian`, `quotient_Jacobian`, `normalization_Jacobian`) receive no object, and
the constructors and the destructor begin and end the life of one; they are not calls on
a constructed model. -/
inductive Op (K : Type) where
  | type
  | point_to_pixel (point : Vector3 K)
  | pixel_to_vector (pix : Vector2 K)
  | camera_center (pix : Vector2 K)
  | geodetic_to_pixel (point : Vector3 K)
  | datum
  | line_num_coeff
  | line_den_coeff
  | sample_num_coeff
  | sample_den_coeff
  | xy_offset
  | xy_scale
  | lonlatheight_offset
  | lonlatheight_scale
  | geodetic_to_pixel_Jacobian (geodetic : Vector3 K)
  | ctr_and_dir (pix : Vector2 K) (ctr dir : Vector3 K)
  | image_to_ground (observedPixel : Vector2 K) (height : K)

/-- The return type of each public member function. -/
def Op.Ret (Datum : Type) {K : Type} : Op K → Type
  | Op.type => String
  | Op.point_to_pixel _ => Vector2 K
  | Op.pixel_to_vector _ => Vector3 K
  | Op.camera_center _ => Vector3 K
  | Op.geodetic_to_pixel _ => Vector2 K
  | Op.datum => Datum
  | Op.line_num_coeff => CoeffVec K
  | Op.line_den_coeff => CoeffVec K
  | Op.sample_num_coeff => CoeffVec K
  | Op.sample_den_coeff => CoeffVec K
  | Op.xy_offset => Vector2 K
  | Op.xy_scale => Vector2 K
  | Op.lonlatheight_offset => Vector3 K
  | Op.lonlatheight_scale => Vector3 K
  | Op.geodetic_to_pixel_Jacobian _ => Matrix K 2 3
  | Op.ctr_and_dir _ _ _ => Vector3 K × Vector3 K
  | Op.image_to_ground _ _ => Vector2 K

/-- A `const` member function given by what it computes from the object. -/
def constCall {α : Type} (body : RPCModel Datum K → Except Exception α) :
    Method (RPCModel Datum K) α := do
  let self ← get
  match body self with
  | Except.ok a => return a
  | Except.error e => throw e

/-- Dispatch of a public member function call on an `RPCModel` object. -/
def call [Zero K] (B : ConstBodies Datum K) :
    (op : Op K) → Method (RPCModel Datum K) (Op.Ret Datum op)
  | Op.type => type
  | Op.point_to_pixel point => constCall (fun self => B.point_to_pixel self point)
  | Op.pixel_to_vector pix => pixel_to_vector pix
  | Op.camera_center pix => camera_center pix
  | Op.geodetic_to_pixel point => constCall (fun self => B.geodetic_to_pixel self point)
  | Op.datum => datum
  | Op.line_num_coeff => line_num_coeff
  | Op.line_den_coeff => line_den_coeff
  | Op.sample_num_coeff => sample_num_coeff
  | Op.sample_den_coeff => sample_den_coeff
  | Op.xy_offset => xy_offset
  | Op.xy_scale => xy_scale
  | Op.lonlatheight_offset => lonlatheight_offset
  | Op.lonlatheight_scale => lonlatheight_scale
  | Op.geodetic_to_pixel_Jacobian geodetic =>
      constCall (fun self => B.geodetic_to_pixel_Jacobian self geodetic)
  | Op.ctr_and_dir pix ctr dir => constCall (fun self => B.ctr_and_dir self pix ctr dir)
  | Op.image_to_ground observedPixel height =>
      constCall (fun self => B.image_to_ground self observedPixel height)

/-! ### Static helpers whose bodies are outside the header -/

/-- Modelled from the spec: the body of `RPCModel::calculate_terms` is not in the header
(only its declaration, lines 87-88).  Spec 4.1: for `v = (x, y, z)` the output is the
fixed 20-element vector with index order
`0:1 1:y 2:x 3:z 4:x·y 5:x·z 6:y·z 7:x² 8:y² 9:z² 10:x·y·z 11:x³ 12:x·y² 13:x·z² 14:x²·y
15:y³ 16:y·z² 17:x²·z 18:y²·z 19:z³`. -/
def calculate_terms [Monoid K] (v : Vector3 K) : CoeffVec K :=
  let x := v.get 0
  let y := v.get 1
  let z := v.get 2
  ⟨[1, y, x, z,
    x * y, x * z, y * z,
    x ^ 2, y ^ 2, z ^ 2,
    x * y * z,
    x ^ 3, x * y ^ 2, x * z ^ 2, x ^ 2 * y,
    y ^ 3, y * z ^ 2, x ^ 2 * z, y ^ 2 * z, z ^ 3], rfl⟩

end RPCModel

end asp

/-! ## `vw::DiskImageResourceIsis` (DiskImageResourceIsis.cc) -/

namespace Isis

/-- The enumeration `Isis::PixelType` of the ISIS library. -/
inductive PixelType where
  | None
  | UnsignedByte
  | SignedByte
  | UnsignedWord
  | SignedWord
  | UnsignedInteger
  | SignedInteger
  | Real
  | Double
deriving DecidableEq, Repr

/-- An `Isis::Portal` as this file uses it: the size and pixel type given to its
constructor and the position given to `SetPosition`. -/
structure Portal where
  samples : Int
  lines : Int
  type : PixelType
  sample : Int
  line : Int
  band : Int
deriving DecidableEq, Repr

/-- An `Isis::Cube` as this file observes it: the answers of `IsOpen`, `Bands`, `Samples`,
`Lines`, `PixelType`, `HasProjection`, and the list of `Read` calls made on it so far. -/
structure Cube where
  IsOpen : Bool
  Bands : Int
  Samples : Int
  Lines : Int
  PixelType : PixelType
  HasProjection : Bool
  readCalls : List Portal
deriving DecidableEq, Repr

/-- The call `cube.Read(buffer)`: the request reaches the cube. -/
def Cube.Read (cube : Cube) (buffer : Portal) : Cube :=
  { cube with readCalls := cube.readCalls ++ [buffer] }

end Isis

namespace vw

/-- The type `vw::Vector2i`. -/
structure Vector2i where
  x : Int
  y : Int
deriving DecidableEq, Repr

/-- The type `vw::BBox2i`: `min()` inclusive, `max()` exclusive. -/
structure BBox2i where
  min : Vector2i
  max : Vector2i
deriving DecidableEq, Repr

/-- Member `BBox2i::width()`. -/
def BBox2i.width (b : BBox2i) : Int := b.max.x - b.min.x

/-- Member `BBox2i::height()`. -/
def BBox2i.height (b : BBox2i) : Int := b.max.y - b.min.y

/-- The values of `vw::PixelFormatEnum` that occur. -/
inductive PixelFormatEnum where
  | VW_PIXEL_UNKNOWN
  | VW_PIXEL_SCALAR
deriving DecidableEq, Repr

/-- The values of `vw::ChannelTypeEnum` that occur. -/
inductive ChannelTypeEnum where
  | VW_CHANNEL_UNKNOWN
  | VW_CHANNEL_INT8
  | VW_CHANNEL_UINT8
  | VW_CHANNEL_INT16
  | VW_CHANNEL_UINT16
  | VW_CHANNEL_INT32
  | VW_CHANNEL_UINT32
  | VW_CHANNEL_FLOAT32
  | VW_CHANNEL_FLOAT64
deriving DecidableEq, Repr

/-- The type `vw::ImageFormat`. -/
structure ImageFormat where
  cols : Int
  rows : Int
  planes : Int
  pixel_format : PixelFormatEnum
  channel_type : ChannelTypeEnum
deriving DecidableEq, Repr

/-- The type `vw::ImageBuffer`; `Ptr` is the type of its `data` pointer. -/
structure ImageBuffer (Ptr : Type) where
  data : Ptr
  format : ImageFormat
  cstride : Int
  rstride : Int
  pstride : Int

/-- The data members of `DiskImageResourceIsis` (`m_format` is inherited from
`DiskImageResource`); `m_cube` is a `boost::shared_ptr<Isis::Cube>`, empty or pointing
to a cube. -/
structure DiskImageResourceIsis where
  m_format : ImageFormat
  m_cube : Option Isis.Cube
  m_filename : String
  m_bytes_per_pixel : Int
deriving DecidableEq, Repr

namespace DiskImageResourceIsis

/-- Member `block_read_size() const`. -/
def block_read_size : Method DiskImageResourceIsis Vector2i :=
  return ⟨2048, 2048⟩

/-- Member `create(filename, format)`: `throw NoImplErr()`. -/
def create (_filename : String) (_format : ImageFormat) : Method DiskImageResourceIsis Unit :=
  throw Exception.NoImplErr

/-- Dereference of `m_cube` (`m_cube->`). -/
def cube : Method DiskImageResourceIsis Isis.Cube := do
  match (← get).m_cube with
  | some c => return c
  | none => throw Exception.NullPointer

/-- Member `read(dest, bbox) const`.  `RawBuffer` is `Isis::Portal::RawBuffer` and
`convert` is `vw::convert(dest, src)`, both library functions. -/
def read {Ptr : Type} (RawBuffer : Isis.Portal → Ptr)
    (convert : ImageBuffer Ptr → ImageBuffer Ptr → Except Exception Unit)
    (dest : ImageBuffer Ptr) (bbox : BBox2i) : Method DiskImageResourceIsis Unit := do
  VW_ASSERT (decide (bbox.max.x ≤ (← cube).Samples) ||
             decide (bbox.max.y ≤ (← cube).Lines))
    Exception.IOErr
  -- Read in the requested tile from the cube file.  The position the Portal constructor
  -- leaves is overwritten by SetPosition before the portal is used.
  let buffer : Isis.Portal :=
    { samples := bbox.width, lines := bbox.height, type := (← cube).PixelType,
      sample := 0, line := 0, band := 0 }
  let buffer := { buffer with sample := bbox.min.x + 1, line := bbox.min.y + 1, band := 1 }
  let c ← cube
  modify fun self => { self with m_cube := some (c.Read buffer) }
  -- Create generic image buffer from the Isis data.
  let self ← get
  let src : ImageBuffer Ptr :=
    { data := RawBuffer buffer
      format := { self.m_format with cols := bbox.width, rows := bbox.height }
      cstride := self.m_bytes_per_pixel
      rstride := self.m_bytes_per_pixel * bbox.width
      pstride := self.m_bytes_per_pixel * bbox.width * bbox.height }
  match convert dest src with
  | Except.ok _ => return ()
  | Except.error e => throw e

/-- Member `write(src, bbox)`: `vw_throw(NoImplErr())`. -/
def write {Ptr : Type} (_src : ImageBuffer Ptr) (_bbox : BBox2i) :
    Method DiskImageResourceIsis Unit :=
  vw_throw Exception.NoImplErr

end DiskImageResourceIsis

end vw

/-! ## `handle_arguments` (camera_footprint.cc) -/

namespace camera_footprint

open vw

/-- The members that `struct Options` adds to its base `GdalWriteOptions`. -/
structure Options where
  image_file : String
  camera_file : String
  stereo_session : String
  bundle_adjust_prefix : String
  datum_str : String
  dem_file : String
  quick : Bool
deriving DecidableEq, Repr

/-- The part of the global `asp::stereo_settings()` that `handle_arguments` writes. -/
structure StereoSettings where
  bundle_adjust_prefix : String
deriving DecidableEq, Repr

/-- What `handle_arguments` works on: its reference argument `opt` and the global stereo
settings. -/
structure Env where
  opt : Options
  stereo_settings : StereoSettings
deriving DecidableEq, Repr

/-- The function `boost::iends_with(input, test)`: `test` is a suffix of `input`, letter
case ignored. -/
def iends_with (input test : String) : Bool :=
  (test.data.map Char.toUpper).isSuffixOf (input.data.map Char.toUpper)

/-- The function `handle_arguments(argc, argv, opt)`.  `check_command_line` is
`asp::check_command_line` applied to the option descriptions built at the start of the
function: the option parser, which fills `opt` from the command line or throws. -/
def handle_arguments
    (check_command_line : List String → Options → Except Exception Unit × Options)
    (argv : List String) : Method Env Unit := do
  let parsed := check_command_line argv (← get).opt
  modify fun env => { env with opt := parsed.2 }
  match parsed.1 with
  | Except.error e => throw e
  | Except.ok _ => pure ()
  if (← get).opt.image_file.isEmpty then
    vw_throw Exception.ArgumentErr
  if iends_with (← get).opt.image_file ".cub" && (← get).opt.stereo_session == "" then
    modify fun env => { env with opt := { env.opt with stereo_session := "isis" } }
  -- Need this to be able to load adjusted camera models.
  modify fun env =>
    { env with stereo_settings :=
        { env.stereo_settings with bundle_adjust_prefix := env.opt.bundle_adjust_prefix } }
  -- Must specify the DEM or the datum
  if (← get).opt.dem_file.isEmpty && (← get).opt.datum_str.isEmpty then
    vw_throw Exception.ArgumentErr

end camera_footprint

/-! ## Concrete inputs used to evaluate the definitions -/

namespace asp

namespace RPCModel

open vw

/-- The normalized point `v = (0.5, -0.25, 0.1)`. -/
def golden_point : Vector3 ℚ := ⟨[1 / 2, -1 / 4, 1 / 10], rfl⟩

end RPCModel

end asp

namespace vw

namespace DiskImageResourceIsis

/-- An opened cube of 10 samples by 10 lines, one band, on which nothing was read yet. -/
def cube10 : Isis.Cube :=
  { IsOpen := true, Bands := 1, Samples := 10, Lines := 10,
    PixelType := Isis.PixelType.Real, HasProjection := false, readCalls := [] }

/-- The resource `open` leaves for `cube10`. -/
def resource10 : DiskImageResourceIsis :=
  { m_format :=
      { cols := 10, rows := 10, planes := 1,
        pixel_format := PixelFormatEnum.VW_PIXEL_SCALAR,
        channel_type := ChannelTypeEnum.VW_CHANNEL_FLOAT32 }
    m_cube := some cube10
    m_filename := "image.cub"
    m_bytes_per_pixel := 4 }

/-- A box 11 wide and 5 high at the origin: too wide for `cube10`, not too high. -/
def bbox_too_wide : BBox2i := { min := ⟨0, 0⟩, max := ⟨11, 5⟩ }

/-- A destination buffer for a box 11 wide and 5 high of `float`. -/
def dest11x5 : ImageBuffer Unit :=
  { data := ()
    format :=
      { cols := 11, rows := 5, planes := 1,
        pixel_format := PixelFormatEnum.VW_PIXEL_SCALAR,
        channel_type := ChannelTypeEnum.VW_CHANNEL_FLOAT32 }
    cstride := 4, rstride := 44, pstride := 220 }

end DiskImageResourceIsis

end vw

namespace camera_footprint

open vw

/-- A small option parser to run `handle_arguments` on: it knows `--datum`, `--dem-file`,
`-t` and `--quick`, and takes the other words as `camera-image` and `camera-model`. -/
def sample_check_command_line_aux : List String → Nat → Options → Except Exception Unit × Options
  | [], _, opt => (Except.ok (), opt)
  | "--quick" :: rest, n, opt => sample_check_command_line_aux rest n { opt with quick := true }
  | "--datum" :: v :: rest, n, opt =>
      sample_check_command_line_aux rest n { opt with datum_str := v }
  | "--dem-file" :: v :: rest, n, opt =>
      sample_check_command_line_aux rest n { opt with dem_file := v }
  | "-t" :: v :: rest, n, opt =>
      sample_check_command_line_aux rest n { opt with stereo_session := v }
  | w :: rest, 0, opt => sample_check_command_line_aux rest 1 { opt with image_file := w }
  | w :: rest, 1, opt => sample_check_command_line_aux rest 2 { opt with camera_file := w }
  | _ :: _, _, opt => (Except.error Exception.ArgumentErr, opt)

/-- The sample parser on `argv`: the program name is skipped and the options with a
default value start from it. -/
def sample_check_command_line (argv : List String) (opt : Options) :
    Except Exception Unit × Options :=
  sample_check_command_line_aux argv.tail 0
    { opt with datum_str := "", quick := false, stereo_session := "", dem_file := "" }

/-- The command line `camera_footprint --datum WGS_1984 image.CUB`. -/
def sample_argv : List String := ["camera_footprint", "--datum", "WGS_1984", "image.CUB"]

/-- The state `main` starts `handle_arguments` in: every string empty. -/
def sample_env : Env :=
  { opt :=
      { image_file := "", camera_file := "", stereo_session := "", bundle_adjust_prefix := ""
        datum_str := "", dem_file := "", quick := false }
    stereo_settings := { bundle_adjust_prefix := "" } }

/-- What the sample parser makes of `sample_argv`. -/
def sample_parsed : Options :=
  { image_file := "image.CUB", camera_file := "", stereo_session := "", bundle_adjust_prefix := ""
    datum_str := "WGS_1984", dem_file := "", quick := false }

end camera_footprint

/-! ## Properties -/

namespace vw

namespace Method

variable {σ α β : Type}

theorem exec_pure (a : α) (s : σ) : (pure a : Method σ α).exec s = (Except.ok a, s) := rfl

theorem exec_throw (e : Exception) (s : σ) :
    (throw e : Method σ α).exec s = (Except.error e, s) := rfl

theorem exec_vw_throw (e : Exception) (s : σ) :
    (vw_throw e : Method σ Unit).exec s = (Except.error e, s) := rfl

theorem exec_get (s : σ) : (get : Method σ σ).exec s = (Except.ok s, s) := rfl

theorem exec_modify (f : σ → σ) (s : σ) :
    (modify f : Method σ PUnit).exec s = (Except.ok PUnit.unit, f s) := rfl

theorem exec_VW_ASSERT (cond : Bool) (e : Exception) (s : σ) :
    (VW_ASSERT cond e : Method σ Unit).exec s =
      if cond then (Except.ok (), s) else (Except.error e, s) := by
  cases cond <;> rfl

/-- Sequencing: the second computation runs on the state the first one leaves, and only
when the first one ends normally. -/
theorem exec_bind (x : Method σ α) (f : α → Method σ β) (s : σ) :
    (x >>= f).exec s =
      match x.exec s with
      | (Except.ok a, s') => (f a).exec s'
      | (Except.error e, s') => (Except.error e, s') := by
  unfold Method.exec
  rw [ExceptT.run_bind, StateT.run_bind]
  show (match StateT.run (ExceptT.run x) s with | (r, s') => _) = _
  rcases StateT.run (ExceptT.run x) s with ⟨r, s'⟩
  cases r <;> rfl

end Method

end vw

namespace asp

namespace RPCModel

open vw

variable {Datum K : Type}

/-! ### Unsupported camera-model operations -/

/-- Claim C1.  On every RPC model and for every pixel, `pixel_to_vector` and
`camera_center` end with the exception `NoImplErr`, leave the model as it was, and never
end normally with a vector; in particular the zero vector written after the throw is not
returned. -/
theorem pixel_to_vector_camera_center_not_implemented [Zero K] (m : RPCModel Datum K)
    (pix : Vector2 K) :
    (pixel_to_vector pix).exec m = (Except.error Exception.NoImplErr, m) ∧
    (camera_center pix).exec m = (Except.error Exception.NoImplErr, m) ∧
    (∀ v : Vector3 K, ((pixel_to_vector pix).exec m).1 ≠ Except.ok v) ∧
    (∀ v : Vector3 K, ((camera_center pix).exec m).1 ≠ Except.ok v) ∧
    ((pixel_to_vector pix).exec m).1 ≠ Except.ok (Vector.zero 3) ∧
    ((camera_center pix).exec m).1 ≠ Except.ok (Vector.zero 3) := by
  have hp : (pixel_to_vector pix).exec m = (Except.error Exception.NoImplErr, m) := rfl
  have hc : (camera_center pix).exec m = (Except.error Exception.NoImplErr, m) := rfl
  refine ⟨hp, hc, ?_, ?_, ?_, ?_⟩
  · intro v h
    rw [hp] at h
    cases h
  · intro v h
    rw [hc] at h
    cases h
  · intro h
    rw [hp] at h
    cases h
  · intro h
    rw [hc] at h
    cases h

/-! ### The term basis -/

/-- Claim C2.  Over every field (and every monoid of scalars) `calculate_terms (x, y, z)`
is the vector of 20 entries, in index order 0..19,
`1, y, x, z, x*y, x*z, y*z, x^2, y^2, z^2, x*y*z, x^3, x*y^2, x*z^2, x^2*y, y^3, y*z^2,
x^2*z, y^2*z, z^3`; at `v = (0.5, -0.25, 0.1)` these are the 20 listed rationals. -/
theorem calculate_terms_index_order :
    (∀ (R : Type) [Monoid R] (x y z : R),
      (calculate_terms (⟨[x, y, z], rfl⟩ : Vector3 R)).data =
        [1, y, x, z, x * y, x * z, y * z, x ^ 2, y ^ 2, z ^ 2, x * y * z,
          x ^ 3, x * y ^ 2, x * z ^ 2, x ^ 2 * y, y ^ 3, y * z ^ 2, x ^ 2 * z, y ^ 2 * z,
          z ^ 3] ∧
      (calculate_terms (⟨[x, y, z], rfl⟩ : Vector3 R)).data.length = 20) ∧
    (calculate_terms golden_point).data =
      [1, -1 / 4, 1 / 2, 1 / 10, -1 / 8, 1 / 20, -1 / 40, 1 / 4, 1 / 16, 1 / 100, -1 / 80,
        1 / 8, 1 / 32, 1 / 200, -1 / 16, -1 / 64, -1 / 400, 1 / 40, 1 / 160, 1 / 1000] := by
  refine ⟨fun R _ x y z => ⟨rfl, rfl⟩, ?_⟩
  norm_num [calculate_terms, golden_point, Vector.get]

/-! ### The coefficient vectors -/

/-- Claim C3.  In every `RPCModel` value the four coefficient vectors have exactly 20
entries, each coefficient accessor ends normally with a vector of 20 entries, the
constructor taking the vectors from the caller stores vectors of 20 entries, and a list of
any other length is not the content of a coefficient vector. -/
theorem coefficient_vectors_have_20_entries (m : RPCModel Datum K) :
    (m.m_line_num_coeff.data.length = 20 ∧ m.m_line_den_coeff.data.length = 20 ∧
      m.m_sample_num_coeff.data.length = 20 ∧ m.m_sample_den_coeff.data.length = 20) ∧
    (∃ r, (line_num_coeff.exec m).1 = Except.ok r ∧ r.data.length = 20) ∧
    (∃ r, (line_den_coeff.exec m).1 = Except.ok r ∧ r.data.length = 20) ∧
    (∃ r, (sample_num_coeff.exec m).1 = Except.ok r ∧ r.data.length = 20) ∧
    (∃ r, (sample_den_coeff.exec m).1 = Except.ok r ∧ r.data.length = 20) ∧
    (∀ (datum : Datum) (ln ld sn sd : CoeffVec K) (xo xs : Vector2 K) (lo ls : Vector3 K),
      (construct datum ln ld sn sd xo xs lo ls).m_line_num_coeff.data.length = 20 ∧
      (construct datum ln ld sn sd xo xs lo ls).m_line_den_coeff.data.length = 20 ∧
      (construct datum ln ld sn sd xo xs lo ls).m_sample_num_coeff.data.length = 20 ∧
      (construct datum ln ld sn sd xo xs lo ls).m_sample_den_coeff.data.length = 20) ∧
    (∀ l : List K, l.length ≠ 20 → ¬ ∃ c : CoeffVec K, c.data = l) := by
  refine ⟨⟨m.m_line_num_coeff.size_eq, m.m_line_den_coeff.size_eq,
    m.m_sample_num_coeff.size_eq, m.m_sample_den_coeff.size_eq⟩,
    ⟨m.m_line_num_coeff, rfl, m.m_line_num_coeff.size_eq⟩,
    ⟨m.m_line_den_coeff, rfl, m.m_line_den_coeff.size_eq⟩,
    ⟨m.m_sample_num_coeff, rfl, m.m_sample_num_coeff.size_eq⟩,
    ⟨m.m_sample_den_coeff, rfl, m.m_sample_den_coeff.size_eq⟩, ?_, ?_⟩
  · intro datum ln ld sn sd xo xs lo ls
    exact ⟨ln.size_eq, ld.size_eq, sn.size_eq, sd.size_eq⟩
  · rintro l hl ⟨c, hc⟩
    exact hl (hc ▸ c.size_eq)

/-! ### Accessors and the frame of the public interface -/

/-- A `const` member function leaves the object as it was and ends as its body says. -/
theorem constCall_exec {α : Type} (body : RPCModel Datum K → Except Exception α)
    (m : RPCModel Datum K) : (constCall body).exec m = (body m, m) := by
  unfold constCall
  rw [Method.exec_bind, Method.exec_get]
  show (match body m with
    | Except.ok a => (return a : Method (RPCModel Datum K) α)
    | Except.error e => throw e).exec m = _
  cases body m <;> rfl

/-- Claim C4.  On every RPC model each accessor ends normally with the stored field and
leaves the model as it was, and every call of a public member function leaves the model
as it was. -/
theorem accessors_return_fields_and_nothing_mutates [Zero K] (m : RPCModel Datum K) :
    datum.exec m = (Except.ok m.m_datum, m) ∧
    line_num_coeff.exec m = (Except.ok m.m_line_num_coeff, m) ∧
    line_den_coeff.exec m = (Except.ok m.m_line_den_coeff, m) ∧
    sample_num_coeff.exec m = (Except.ok m.m_sample_num_coeff, m) ∧
    sample_den_coeff.exec m = (Except.ok m.m_sample_den_coeff, m) ∧
    xy_offset.exec m = (Except.ok m.m_xy_offset, m) ∧
    xy_scale.exec m = (Except.ok m.m_xy_scale, m) ∧
    lonlatheight_offset.exec m = (Except.ok m.m_lonlatheight_offset, m) ∧
    lonlatheight_scale.exec m = (Except.ok m.m_lonlatheight_scale, m) ∧
    (∀ (B : ConstBodies Datum K) (op : Op K), ((call B op).exec m).2 = m) := by
  refine ⟨rfl, rfl, rfl, rfl, rfl, rfl, rfl, rfl, rfl, ?_⟩
  intro B op
  cases op <;> first | rfl | simp only [call, constCall_exec]

/-! ### The quotient gradient -/

end RPCModel

end asp

namespace vw

namespace DiskImageResourceIsis

/-! ### Creating and writing ISIS files -/

/-- Claim C7.  For every resource, file name, image format, source buffer and bounding
box, `create` and `write` end with the exception `NoImplErr` and leave the resource as it
was: `m_cube`, `m_filename`, `m_format` and `m_bytes_per_pixel` are unchanged. -/
theorem create_write_not_implemented (r : DiskImageResourceIsis) (filename : String)
    (format : ImageFormat) {Ptr : Type} (src : ImageBuffer Ptr) (bbox : BBox2i) :
    ((create filename format).exec r).1 = Except.error Exception.NoImplErr ∧
    ((write src bbox).exec r).1 = Except.error Exception.NoImplErr ∧
    ((create filename format).exec r).2 = r ∧
    ((write src bbox).exec r).2 = r ∧
    (((create filename format).exec r).2.m_cube = r.m_cube ∧
      ((create filename format).exec r).2.m_filename = r.m_filename ∧
      ((create filename format).exec r).2.m_format = r.m_format ∧
      ((create filename format).exec r).2.m_bytes_per_pixel = r.m_bytes_per_pixel) ∧
    (((write src bbox).exec r).2.m_cube = r.m_cube ∧
      ((write src bbox).exec r).2.m_filename = r.m_filename ∧
      ((write src bbox).exec r).2.m_format = r.m_format ∧
      ((write src bbox).exec r).2.m_bytes_per_pixel = r.m_bytes_per_pixel) :=
  ⟨rfl, rfl, rfl, rfl, ⟨rfl, rfl, rfl, rfl⟩, ⟨rfl, rfl, rfl, rfl⟩⟩

/-! ### The bounds check of `read` -/

/-- Dereferencing `m_cube` when it points to a cube. -/
theorem exec_cube (r : DiskImageResourceIsis) (c : Isis.Cube) (h : r.m_cube = some c) :
    cube.exec r = (Except.ok c, r) := by
  unfold cube
  rw [Method.exec_bind, Method.exec_get]
  simp only [h]
  rfl

/-- What `read` does on an opened cube: when the box fits in the samples or fits in the
lines, the portal is read from the cube and handed to `convert`; only when it fits in
neither does the call end with `IOErr`, the cube untouched. -/
theorem read_exec {Ptr : Type} (RawBuffer : Isis.Portal → Ptr)
    (convert : ImageBuffer Ptr → ImageBuffer Ptr → Except Exception Unit)
    (dest : ImageBuffer Ptr) (bbox : BBox2i) (r : DiskImageResourceIsis) (c : Isis.Cube)
    (h : r.m_cube = some c) :
    (read RawBuffer convert dest bbox).exec r =
      if bbox.max.x ≤ c.Samples ∨ bbox.max.y ≤ c.Lines then
        let buffer : Isis.Portal :=
          ⟨bbox.width, bbox.height, c.PixelType, bbox.min.x + 1, bbox.min.y + 1, 1⟩
        (convert dest
          { data := RawBuffer buffer
            format := { r.m_format with cols := bbox.width, rows := bbox.height }
            cstride := r.m_bytes_per_pixel
            rstride := r.m_bytes_per_pixel * bbox.width
            pstride := r.m_bytes_per_pixel * bbox.width * bbox.height },
         { r with m_cube := some (c.Read buffer) })
      else (Except.error Exception.IOErr, r) := by
  unfold read
  simp only [Method.exec_bind, exec_cube r c h, Method.exec_VW_ASSERT]
  by_cases hx : bbox.max.x ≤ c.Samples <;> by_cases hy : bbox.max.y ≤ c.Lines <;>
    simp [hx, hy, Method.exec_bind, exec_cube r c h, Method.exec_modify, Method.exec_get,
      Method.exec_pure, Method.exec_throw]
  all_goals (generalize convert dest _ = res; cases res <;> rfl)

/-- Claim C8, the code at a box that exceeds the image in x only.  On the 10 by 10 cube
the box with `max() = (11, 5)` has `max().x() > Samples()`, yet `read` does not end with
`IOErr`: it ends normally and one `Read` of an 11 by 5 portal has reached the cube. -/
theorem read_box_wider_than_cube_is_read :
    cube10.Samples < bbox_too_wide.max.x ∧
    ((read (fun _ => ()) (fun _ _ => Except.ok ()) dest11x5 bbox_too_wide).exec resource10).1
      = Except.ok () ∧
    ((read (fun _ => ()) (fun _ _ => Except.ok ()) dest11x5 bbox_too_wide).exec resource10).2
      = { resource10 with
          m_cube := some { cube10 with
            readCalls :=
              [{ samples := 11, lines := 5, type := Isis.PixelType.Real,
                 sample := 1, line := 1, band := 1 }] } } :=
  ⟨by decide, rfl, rfl⟩

end DiskImageResourceIsis

end vw

namespace camera_footprint

open vw

/-! ### The argument checks of `handle_arguments` -/

/-- What `handle_arguments` does once the option parser has accepted the command line
and left the options `opt'`. -/
theorem handle_arguments_exec
    (check_command_line : List String → Options → Except Exception Unit × Options)
    (argv : List String) (env : Env) (opt' : Options)
    (hparse : check_command_line argv env.opt = (Except.ok (), opt')) :
    (handle_arguments check_command_line argv).exec env =
      if opt'.image_file.isEmpty then
        (Except.error Exception.ArgumentErr, { env with opt := opt' })
      else
        let o := if iends_with opt'.image_file ".cub" && opt'.stereo_session == ""
          then { opt' with stereo_session := "isis" } else opt'
        let env' : Env := ⟨o, ⟨ o.bundle_adjust_prefix⟩⟩
        if opt'.dem_file.isEmpty && opt'.datum_str.isEmpty
          then (Except.error Exception.ArgumentErr, env') else (Except.ok (), env') := by
  unfold handle_arguments
  simp only [Method.exec_bind, Method.exec_get, Method.exec_modify, hparse, Method.exec_pure]
  cases h1 : opt'.image_file.isEmpty
  · cases h2 : iends_with opt'.image_file ".cub" <;> by_cases h3 : opt'.stereo_session = "" <;>
      cases h4 : opt'.dem_file.isEmpty <;> cases h5 : opt'.datum_str.isEmpty <;>
      simp [Method.exec_bind, Method.exec_get, Method.exec_modify, Method.exec_pure,
        Method.exec_vw_throw, h1, h2, h3, h4, h5] <;> rfl
  · simp [Method.exec_bind, Method.exec_get, Method.exec_modify, Method.exec_pure,
      Method.exec_vw_throw, h1]

/-- Claim C6.  When the option parser accepts the command line and leaves the options
`opt'`: `handle_arguments` ends with `ArgumentErr` if the camera image is empty, and ends
with `ArgumentErr` if both the DEM file and the datum are empty; and whenever it ends
normally, `opt.image_file` is non-empty and `opt.dem_file` or `opt.datum_str` is
non-empty. -/
theorem handle_arguments_checks
    (check_command_line : List String → Options → Except Exception Unit × Options)
    (argv : List String) (env : Env) (opt' : Options)
    (hparse : check_command_line argv env.opt = (Except.ok (), opt')) :
    (opt'.image_file.isEmpty = true →
      ((handle_arguments check_command_line argv).exec env).1 =
        Except.error Exception.ArgumentErr) ∧
    (opt'.dem_file.isEmpty = true ∧ opt'.datum_str.isEmpty = true →
      ((handle_arguments check_command_line argv).exec env).1 =
        Except.error Exception.ArgumentErr) ∧
    (((handle_arguments check_command_line argv).exec env).1 = Except.ok () →
      ((handle_arguments check_command_line argv).exec env).2.opt.image_file.isEmpty = false ∧
      (((handle_arguments check_command_line argv).exec env).2.opt.dem_file.isEmpty = false ∨
       ((handle_arguments check_command_line argv).exec env).2.opt.datum_str.isEmpty = false)) := by
  rw [handle_arguments_exec check_command_line argv env opt' hparse]
  refine ⟨?_, ?_, ?_⟩
  · intro h
    simp [h]
  · rintro ⟨h1, h2⟩
    cases h0 : opt'.image_file.isEmpty <;> simp [h1, h2]
  · cases h0 : opt'.image_file.isEmpty
    · cases h1 : opt'.dem_file.isEmpty <;> cases h2 : opt'.datum_str.isEmpty <;>
        cases h3 : (iends_with opt'.image_file ".cub" && opt'.stereo_session == "") <;>
        simp [h0, h1, h2, h3]
    · simp

/-- The hypothesis of claim C6 holds for the sample parser on
`camera_footprint --datum WGS_1984 image.CUB`, and so does its conclusion. -/
theorem handle_arguments_checks_witness :
    sample_check_command_line sample_argv sample_env.opt = (Except.ok (), sample_parsed) ∧
    ((sample_parsed.image_file.isEmpty = true →
      ((handle_arguments sample_check_command_line sample_argv).exec sample_env).1 =
        Except.error Exception.ArgumentErr) ∧
    (sample_parsed.dem_file.isEmpty = true ∧ sample_parsed.datum_str.isEmpty = true →
      ((handle_arguments sample_check_command_line sample_argv).exec sample_env).1 =
        Except.error Exception.ArgumentErr) ∧
    (((handle_arguments sample_check_command_line sample_argv).exec sample_env).1 =
        Except.ok () →
      ((handle_arguments sample_check_command_line sample_argv).exec
        sample_env).2.opt.image_file.isEmpty = false ∧
      (((handle_arguments sample_check_command_line sample_argv).exec
          sample_env).2.opt.dem_file.isEmpty = false ∨
       ((handle_arguments sample_check_command_line sample_argv).exec
          sample_env).2.opt.datum_str.isEmpty = false))) :=
  ⟨rfl, handle_arguments_checks sample_check_command_line sample_argv sample_env
    sample_parsed rfl⟩

end camera_footprint
